import Mathlib

set_option maxRecDepth 16384

/-!
Shallow embedding of `geopy/geocoders/what3words.py` (the `What3Words`
geocoder of the geopy repository) and proofs about its specification.

The module validates a three-word query with a regular expression, builds
request URLs for the what3words v2 API, and parses JSON responses into
`Location` records, mapping API error codes to typed exceptions.
-/

namespace What3WordsSpec

/-! ## The query regular expression

The source compiles `[^\W\d\_]+\.{1,1}[^\W\d\_]+\.{1,1}[^\W\d\_]+$` with
`re.U` and applies it with `re.match` (anchored at the start of the string).
The character class `[^\W\d\_]` is a word character that is neither a
decimal digit nor an underscore: the Unicode letters, plus the handful of
non-decimal numeric characters; it is modelled below by the exhaustive
list of its code-point ranges.
Python's `$` (without `re.MULTILINE`) matches at the end of the string and
also just before a newline that is the last character of the string.

Because the letter class contains neither `.` nor `\n`, the regex is
deterministic: each `+` group necessarily consumes a maximal run of
letters, so the matcher below, written with maximal munch, is an exact
model of the backtracking regex engine on this pattern. -/

/-- The inclusive code-point ranges of the characters matched by the
character class `[^\W\d\_]` of `multiple_word_re` under `re.U`: the word
characters that are neither decimal digits (`\d`, category Nd) nor the
underscore — that is, the Unicode letters together with the non-decimal
numeric characters.  Enumerated from the Unicode character database
(version 14.0.0, as used by CPython's `re` module). -/
def phraseLetterRanges : List (ℕ × ℕ) := [
  (65, 90), (97, 122), (170, 170), (178, 179), (181, 181), (185, 186),
  (188, 190), (192, 214), (216, 246), (248, 705), (710, 721), (736, 740),
  (748, 748), (750, 750), (880, 884), (886, 887), (890, 893), (895, 895),
  (902, 902), (904, 906), (908, 908), (910, 929), (931, 1013), (1015, 1153),
  (1162, 1327), (1329, 1366), (1369, 1369), (1376, 1416), (1488, 1514), (1519, 1522),
  (1568, 1610), (1646, 1647), (1649, 1747), (1749, 1749), (1765, 1766), (1774, 1775),
  (1786, 1788), (1791, 1791), (1808, 1808), (1810, 1839), (1869, 1957), (1969, 1969),
  (1994, 2026), (2036, 2037), (2042, 2042), (2048, 2069), (2074, 2074), (2084, 2084),
  (2088, 2088), (2112, 2136), (2144, 2154), (2160, 2183), (2185, 2190), (2208, 2249),
  (2308, 2361), (2365, 2365), (2384, 2384), (2392, 2401), (2417, 2432), (2437, 2444),
  (2447, 2448), (2451, 2472), (2474, 2480), (2482, 2482), (2486, 2489), (2493, 2493),
  (2510, 2510), (2524, 2525), (2527, 2529), (2544, 2545), (2548, 2553), (2556, 2556),
  (2565, 2570), (2575, 2576), (2579, 2600), (2602, 2608), (2610, 2611), (2613, 2614),
  (2616, 2617), (2649, 2652), (2654, 2654), (2674, 2676), (2693, 2701), (2703, 2705),
  (2707, 2728), (2730, 2736), (2738, 2739), (2741, 2745), (2749, 2749), (2768, 2768),
  (2784, 2785), (2809, 2809), (2821, 2828), (2831, 2832), (2835, 2856), (2858, 2864),
  (2866, 2867), (2869, 2873), (2877, 2877), (2908, 2909), (2911, 2913), (2929, 2935),
  (2947, 2947), (2949, 2954), (2958, 2960), (2962, 2965), (2969, 2970), (2972, 2972),
  (2974, 2975), (2979, 2980), (2984, 2986), (2990, 3001), (3024, 3024), (3056, 3058),
  (3077, 3084), (3086, 3088), (3090, 3112), (3114, 3129), (3133, 3133), (3160, 3162),
  (3165, 3165), (3168, 3169), (3192, 3198), (3200, 3200), (3205, 3212), (3214, 3216),
  (3218, 3240), (3242, 3251), (3253, 3257), (3261, 3261), (3293, 3294), (3296, 3297),
  (3313, 3314), (3332, 3340), (3342, 3344), (3346, 3386), (3389, 3389), (3406, 3406),
  (3412, 3414), (3416, 3425), (3440, 3448), (3450, 3455), (3461, 3478), (3482, 3505),
  (3507, 3515), (3517, 3517), (3520, 3526), (3585, 3632), (3634, 3635), (3648, 3654),
  (3713, 3714), (3716, 3716), (3718, 3722), (3724, 3747), (3749, 3749), (3751, 3760),
  (3762, 3763), (3773, 3773), (3776, 3780), (3782, 3782), (3804, 3807), (3840, 3840),
  (3882, 3891), (3904, 3911), (3913, 3948), (3976, 3980), (4096, 4138), (4159, 4159),
  (4176, 4181), (4186, 4189), (4193, 4193), (4197, 4198), (4206, 4208), (4213, 4225),
  (4238, 4238), (4256, 4293), (4295, 4295), (4301, 4301), (4304, 4346), (4348, 4680),
  (4682, 4685), (4688, 4694), (4696, 4696), (4698, 4701), (4704, 4744), (4746, 4749),
  (4752, 4784), (4786, 4789), (4792, 4798), (4800, 4800), (4802, 4805), (4808, 4822),
  (4824, 4880), (4882, 4885), (4888, 4954), (4969, 4988), (4992, 5007), (5024, 5109),
  (5112, 5117), (5121, 5740), (5743, 5759), (5761, 5786), (5792, 5866), (5870, 5880),
  (5888, 5905), (5919, 5937), (5952, 5969), (5984, 5996), (5998, 6000), (6016, 6067),
  (6103, 6103), (6108, 6108), (6128, 6137), (6176, 6264), (6272, 6276), (6279, 6312),
  (6314, 6314), (6320, 6389), (6400, 6430), (6480, 6509), (6512, 6516), (6528, 6571),
  (6576, 6601), (6618, 6618), (6656, 6678), (6688, 6740), (6823, 6823), (6917, 6963),
  (6981, 6988), (7043, 7072), (7086, 7087), (7098, 7141), (7168, 7203), (7245, 7247),
  (7258, 7293), (7296, 7304), (7312, 7354), (7357, 7359), (7401, 7404), (7406, 7411),
  (7413, 7414), (7418, 7418), (7424, 7615), (7680, 7957), (7960, 7965), (7968, 8005),
  (8008, 8013), (8016, 8023), (8025, 8025), (8027, 8027), (8029, 8029), (8031, 8061),
  (8064, 8116), (8118, 8124), (8126, 8126), (8130, 8132), (8134, 8140), (8144, 8147),
  (8150, 8155), (8160, 8172), (8178, 8180), (8182, 8188), (8304, 8305), (8308, 8313),
  (8319, 8329), (8336, 8348), (8450, 8450), (8455, 8455), (8458, 8467), (8469, 8469),
  (8473, 8477), (8484, 8484), (8486, 8486), (8488, 8488), (8490, 8493), (8495, 8505),
  (8508, 8511), (8517, 8521), (8526, 8526), (8528, 8585), (9312, 9371), (9450, 9471),
  (10102, 10131), (11264, 11492), (11499, 11502), (11506, 11507), (11517, 11517), (11520, 11557),
  (11559, 11559), (11565, 11565), (11568, 11623), (11631, 11631), (11648, 11670), (11680, 11686),
  (11688, 11694), (11696, 11702), (11704, 11710), (11712, 11718), (11720, 11726), (11728, 11734),
  (11736, 11742), (11823, 11823), (12293, 12295), (12321, 12329), (12337, 12341), (12344, 12348),
  (12353, 12438), (12445, 12447), (12449, 12538), (12540, 12543), (12549, 12591), (12593, 12686),
  (12690, 12693), (12704, 12735), (12784, 12799), (12832, 12841), (12872, 12879), (12881, 12895),
  (12928, 12937), (12977, 12991), (13312, 19903), (19968, 42124), (42192, 42237), (42240, 42508),
  (42512, 42527), (42538, 42539), (42560, 42606), (42623, 42653), (42656, 42735), (42775, 42783),
  (42786, 42888), (42891, 42954), (42960, 42961), (42963, 42963), (42965, 42969), (42994, 43009),
  (43011, 43013), (43015, 43018), (43020, 43042), (43056, 43061), (43072, 43123), (43138, 43187),
  (43250, 43255), (43259, 43259), (43261, 43262), (43274, 43301), (43312, 43334), (43360, 43388),
  (43396, 43442), (43471, 43471), (43488, 43492), (43494, 43503), (43514, 43518), (43520, 43560),
  (43584, 43586), (43588, 43595), (43616, 43638), (43642, 43642), (43646, 43695), (43697, 43697),
  (43701, 43702), (43705, 43709), (43712, 43712), (43714, 43714), (43739, 43741), (43744, 43754),
  (43762, 43764), (43777, 43782), (43785, 43790), (43793, 43798), (43808, 43814), (43816, 43822),
  (43824, 43866), (43868, 43881), (43888, 44002), (44032, 55203), (55216, 55238), (55243, 55291),
  (63744, 64109), (64112, 64217), (64256, 64262), (64275, 64279), (64285, 64285), (64287, 64296),
  (64298, 64310), (64312, 64316), (64318, 64318), (64320, 64321), (64323, 64324), (64326, 64433),
  (64467, 64829), (64848, 64911), (64914, 64967), (65008, 65019), (65136, 65140), (65142, 65276),
  (65313, 65338), (65345, 65370), (65382, 65470), (65474, 65479), (65482, 65487), (65490, 65495),
  (65498, 65500), (65536, 65547), (65549, 65574), (65576, 65594), (65596, 65597), (65599, 65613),
  (65616, 65629), (65664, 65786), (65799, 65843), (65856, 65912), (65930, 65931), (66176, 66204),
  (66208, 66256), (66273, 66299), (66304, 66339), (66349, 66378), (66384, 66421), (66432, 66461),
  (66464, 66499), (66504, 66511), (66513, 66517), (66560, 66717), (66736, 66771), (66776, 66811),
  (66816, 66855), (66864, 66915), (66928, 66938), (66940, 66954), (66956, 66962), (66964, 66965),
  (66967, 66977), (66979, 66993), (66995, 67001), (67003, 67004), (67072, 67382), (67392, 67413),
  (67424, 67431), (67456, 67461), (67463, 67504), (67506, 67514), (67584, 67589), (67592, 67592),
  (67594, 67637), (67639, 67640), (67644, 67644), (67647, 67669), (67672, 67702), (67705, 67742),
  (67751, 67759), (67808, 67826), (67828, 67829), (67835, 67867), (67872, 67897), (67968, 68023),
  (68028, 68047), (68050, 68096), (68112, 68115), (68117, 68119), (68121, 68149), (68160, 68168),
  (68192, 68222), (68224, 68255), (68288, 68295), (68297, 68324), (68331, 68335), (68352, 68405),
  (68416, 68437), (68440, 68466), (68472, 68497), (68521, 68527), (68608, 68680), (68736, 68786),
  (68800, 68850), (68858, 68899), (69216, 69246), (69248, 69289), (69296, 69297), (69376, 69415),
  (69424, 69445), (69457, 69460), (69488, 69505), (69552, 69579), (69600, 69622), (69635, 69687),
  (69714, 69733), (69745, 69746), (69749, 69749), (69763, 69807), (69840, 69864), (69891, 69926),
  (69956, 69956), (69959, 69959), (69968, 70002), (70006, 70006), (70019, 70066), (70081, 70084),
  (70106, 70106), (70108, 70108), (70113, 70132), (70144, 70161), (70163, 70187), (70272, 70278),
  (70280, 70280), (70282, 70285), (70287, 70301), (70303, 70312), (70320, 70366), (70405, 70412),
  (70415, 70416), (70419, 70440), (70442, 70448), (70450, 70451), (70453, 70457), (70461, 70461),
  (70480, 70480), (70493, 70497), (70656, 70708), (70727, 70730), (70751, 70753), (70784, 70831),
  (70852, 70853), (70855, 70855), (71040, 71086), (71128, 71131), (71168, 71215), (71236, 71236),
  (71296, 71338), (71352, 71352), (71424, 71450), (71482, 71483), (71488, 71494), (71680, 71723),
  (71840, 71903), (71914, 71922), (71935, 71942), (71945, 71945), (71948, 71955), (71957, 71958),
  (71960, 71983), (71999, 71999), (72001, 72001), (72096, 72103), (72106, 72144), (72161, 72161),
  (72163, 72163), (72192, 72192), (72203, 72242), (72250, 72250), (72272, 72272), (72284, 72329),
  (72349, 72349), (72368, 72440), (72704, 72712), (72714, 72750), (72768, 72768), (72794, 72812),
  (72818, 72847), (72960, 72966), (72968, 72969), (72971, 73008), (73030, 73030), (73056, 73061),
  (73063, 73064), (73066, 73097), (73112, 73112), (73440, 73458), (73648, 73648), (73664, 73684),
  (73728, 74649), (74752, 74862), (74880, 75075), (77712, 77808), (77824, 78894), (82944, 83526),
  (92160, 92728), (92736, 92766), (92784, 92862), (92880, 92909), (92928, 92975), (92992, 92995),
  (93019, 93025), (93027, 93047), (93053, 93071), (93760, 93846), (93952, 94026), (94032, 94032),
  (94099, 94111), (94176, 94177), (94179, 94179), (94208, 100343), (100352, 101589), (101632, 101640),
  (110576, 110579), (110581, 110587), (110589, 110590), (110592, 110882), (110928, 110930), (110948, 110951),
  (110960, 111355), (113664, 113770), (113776, 113788), (113792, 113800), (113808, 113817), (119520, 119539),
  (119648, 119672), (119808, 119892), (119894, 119964), (119966, 119967), (119970, 119970), (119973, 119974),
  (119977, 119980), (119982, 119993), (119995, 119995), (119997, 120003), (120005, 120069), (120071, 120074),
  (120077, 120084), (120086, 120092), (120094, 120121), (120123, 120126), (120128, 120132), (120134, 120134),
  (120138, 120144), (120146, 120485), (120488, 120512), (120514, 120538), (120540, 120570), (120572, 120596),
  (120598, 120628), (120630, 120654), (120656, 120686), (120688, 120712), (120714, 120744), (120746, 120770),
  (120772, 120779), (122624, 122654), (123136, 123180), (123191, 123197), (123214, 123214), (123536, 123565),
  (123584, 123627), (124896, 124902), (124904, 124907), (124909, 124910), (124912, 124926), (124928, 125124),
  (125127, 125135), (125184, 125251), (125259, 125259), (126065, 126123), (126125, 126127), (126129, 126132),
  (126209, 126253), (126255, 126269), (126464, 126467), (126469, 126495), (126497, 126498), (126500, 126500),
  (126503, 126503), (126505, 126514), (126516, 126519), (126521, 126521), (126523, 126523), (126530, 126530),
  (126535, 126535), (126537, 126537), (126539, 126539), (126541, 126543), (126545, 126546), (126548, 126548),
  (126551, 126551), (126553, 126553), (126555, 126555), (126557, 126557), (126559, 126559), (126561, 126562),
  (126564, 126564), (126567, 126570), (126572, 126578), (126580, 126583), (126585, 126588), (126590, 126590),
  (126592, 126601), (126603, 126619), (126625, 126627), (126629, 126633), (126635, 126651), (127232, 127244),
  (131072, 173791), (173824, 177976), (177984, 178205), (178208, 183969), (183984, 191456), (194560, 195101),
  (196608, 201546)]

/-- Membership of a code point in `phraseLetterRanges`. -/
def isLetterCode (n : ℕ) : Bool :=
  phraseLetterRanges.any fun p => decide (p.1 ≤ n) && decide (n ≤ p.2)

/-- The character class `[^\W\d\_]` of `multiple_word_re`: a word
character that is neither a decimal digit nor an underscore. -/
def isPhraseLetter (c : Char) : Bool := isLetterCode c.toNat

/-- Consume the maximal run of phrase letters at the head of the list. -/
def dropLetters : List Char → List Char
  | [] => []
  | c :: cs => if isPhraseLetter c then dropLetters cs else c :: cs

/-- Match `[^\W\d\_]+` (one or more letters, greedily): `some rest` on
success, `none` when the head is not a letter. -/
def matchWordPlus : List Char → Option (List Char)
  | [] => none
  | c :: cs => if isPhraseLetter c then some (dropLetters cs) else none

/-- Match the literal `\.{1,1}`, a single dot. -/
def matchDot : List Char → Option (List Char)
  | [] => none
  | c :: cs => if c = '.' then some cs else none

/-- Python's `$` anchor (no `re.MULTILINE`): matches at the end of the
string, or just before a newline that ends the string. -/
def atEndAnchor : List Char → Bool
  | [] => true
  | [c] => c == '\n'
  | _ => false

/-- `What3Words.multiple_word_re.match(s)` as a Boolean: does the regex
`[^\W\d\_]+\.{1,1}[^\W\d\_]+\.{1,1}[^\W\d\_]+$` match at the start of `s`? -/
def multiple_word_re_match (s : String) : Bool :=
  match matchWordPlus s.data with
  | none => false
  | some r₁ =>
    match matchDot r₁ with
    | none => false
    | some r₂ =>
      match matchWordPlus r₂ with
      | none => false
      | some r₃ =>
        match matchDot r₃ with
        | none => false
        | some r₄ =>
          match matchWordPlus r₄ with
          | none => false
          | some r₅ => atEndAnchor r₅

/-- `What3Words._check_query`: `False` when the regex does not match,
`True` otherwise. -/
def check_query (query : String) : Bool :=
  if !multiple_word_re_match query then false else true

/-! ## JSON scalar values

Latitude/longitude/`code` values decoded from JSON can be integers, floats
or strings; Python floats are modelled as rationals (the parsing code does
no arithmetic on them, only the `float(...)` conversion). -/

/-- A scalar decoded from JSON: a Python `int`, `float` or `str`. -/
inductive PyVal where
  | int (n : ℤ)
  | float (q : ℚ)
  | str (s : String)
deriving Repr, DecidableEq

/-- Python truthiness of a scalar: `0`, `0.0` and `""` are falsy. -/
def PyVal.truthy : PyVal → Bool
  | .int n => n ≠ 0
  | .float q => q ≠ 0
  | .str s => s ≠ ""

/-- Python `==` between a scalar and an integer literal: `401 == 401` and
`401.0 == 401` are true, a string never equals an integer. -/
def PyVal.eqInt (v : PyVal) (m : ℤ) : Bool :=
  match v with
  | .int n => n = m
  | .float q => q = (m : ℚ)
  | .str _ => false

/-- One digit of a decimal literal. -/
def digitVal (c : Char) : ℕ := c.toNat - 48

/-- Value of a run of decimal digits. -/
def digitsVal (ds : List Char) : ℕ :=
  ds.foldl (fun a c => 10 * a + digitVal c) 0

/-- Modelled from the spec: Python's builtin `float(str)` (the standard
library, not part of the repository) on plain decimal literals
`[-]digits[.digits]`; any other string raises `ValueError`. -/
def parseFloatLit (s : String) : Option ℚ :=
  let core (cs : List Char) : Option ℚ :=
    let intPart := cs.takeWhile Char.isDigit
    let rest := cs.dropWhile Char.isDigit
    match rest with
    | [] => if intPart = [] then none else some (digitsVal intPart)
    | '.' :: frac =>
      if intPart = [] ∨ frac = [] ∨ ¬ frac.all Char.isDigit then none
      else some ((digitsVal intPart : ℚ) + (digitsVal frac : ℚ) / (10 : ℚ) ^ frac.length)
    | _ => none
  match s.data with
  | '-' :: cs => (core cs).map Neg.neg
  | cs => core cs

/-- Python's `float(...)` applied to a decoded scalar: ints and floats
convert, strings are parsed (or raise `ValueError`, modelled as `none`). -/
def pyFloat : PyVal → Option ℚ
  | .int n => some (n : ℚ)
  | .float q => some q
  | .str s => parseFloatLit s

/-! ## Response shape and errors

The parser performs the dictionary accesses `resources['status']`,
`status.get('code')`, `resources['status']['message']`,
`'geometry' in resource`, `resource['words']`, `position['lat']`,
`position['lng']`.  We model the response as a record of optional fields,
`none` meaning the key is absent (a plain `[...]` access then raises
`KeyError`). -/

/-- The top-level `status` object of a response. -/
structure W3WStatus where
  code : Option PyVal
  message : Option String
deriving Repr, DecidableEq

/-- The `geometry` object of a response. -/
structure W3WGeometry where
  lat : Option PyVal
  lng : Option PyVal
deriving Repr, DecidableEq

/-- A parsed JSON response body, restricted to the keys the parser reads. -/
structure W3WResponse where
  status : Option W3WStatus
  words : Option PyVal
  geometry : Option W3WGeometry
deriving Repr, DecidableEq

/-- The exceptions the module can raise: the `geopy.exc` classes it
instantiates, plus the Python builtins `KeyError` and `ValueError` that
escape from dictionary access and `float(...)`. -/
inductive GeoErr where
  | GeocoderQueryError (msg : String)
  | GeocoderAuthenticationFailure (msg : String)
  | GeocoderParseError (msg : String)
  | ConfigurationError (msg : String)
  | KeyError (key : String)
  | ValueError (s : String)
deriving Repr, DecidableEq

/-- `geopy.location.Location` as constructed here: `Location(words, (latitude,
longitude), resource)`. -/
structure Location where
  label : PyVal
  point : PyVal × PyVal
  raw : W3WResponse
deriving Repr, DecidableEq

/-- Result of `_parse_json`: a single `Location` when `exactly_one` is true,
a list of `Location`s otherwise. -/
inductive GeoResult where
  | one (loc : Location)
  | many (locs : List Location)
deriving Repr, DecidableEq

/-- Dictionary access `d[k]`: `KeyError` when the key is absent. -/
def getKey {α : Type} (v : Option α) (key : String) : Except GeoErr α :=
  match v with
  | some a => .ok a
  | none => .error (.KeyError key)

/-- `status.get('code')` is truthy: the key is present and its value is
truthy (`None` and `0` are falsy). -/
def codeTruthy (code : Option PyVal) : Bool :=
  match code with
  | some v => v.truthy
  | none => false

/-! ## `_parse_json` -/

/-- The local function `parse_resource` of `What3Words._parse_json`: if the
record has a `geometry` key, read `words`, `lat` and `lng`, coerce both
coordinates through `float` only when both are truthy, and build a
`Location`; otherwise raise `GeocoderParseError('Error parsing result.')`. -/
def parse_resource (resource : W3WResponse) : Except GeoErr Location :=
  match resource.geometry with
  | some position => do
    let words ← getKey resource.words "words"
    let latitude ← getKey position.lat "lat"
    let longitude ← getKey position.lng "lng"
    if latitude.truthy && longitude.truthy then
      match pyFloat latitude, pyFloat longitude with
      | some lat, some lng => .ok ⟨words, (.float lat, .float lng), resource⟩
      | _, _ => .error (.ValueError "could not convert to float")
    else
      .ok ⟨words, (latitude, longitude), resource⟩
  | none => .error (.GeocoderParseError "Error parsing result.")

/-- The tail of `What3Words._parse_json` after the error-status check:
`location = parse_resource(resources)`, returned directly when
`exactly_one` else wrapped in a one-element list. -/
def parse_json_tail (resources : W3WResponse) (exactly_one : Bool) :
    Except GeoErr GeoResult := do
  let location ← parse_resource resources
  if exactly_one then
    .ok (.one location)
  else
    .ok (.many [location])

/-- `What3Words._parse_json`: check the `status` field for an error code
(401 becomes `GeocoderAuthenticationFailure`, any other truthy code becomes
`GeocoderQueryError`, both with the API message appended to
`"Error returned by What3Words: "`), then parse the body itself as the
single result, wrapped in a list when `exactly_one` is false. -/
def parse_json (resources : W3WResponse) (exactly_one : Bool) :
    Except GeoErr GeoResult := do
  let status ← getKey resources.status "status"
  match status.code with
  | some code =>
    if code.truthy then do
      let message ← getKey status.message "message"
      let excMsg := "Error returned by What3Words: " ++ message
      if code.eqInt 401 then
        .error (.GeocoderAuthenticationFailure excMsg)
      else
        .error (.GeocoderQueryError excMsg)
    else
      parse_json_tail resources exactly_one
  | none => parse_json_tail resources exactly_one

/-- `What3Words._parse_reverse_json` simply delegates to `_parse_json`. -/
def parse_reverse_json (resources : W3WResponse) (exactly_one : Bool) :
    Except GeoErr GeoResult :=
  parse_json resources exactly_one

/-! ## URL construction

`urllib.parse.urlencode` with default arguments quotes each key and value
with `quote_plus`: ASCII alphanumerics and `_ . - ~` pass through, a space
becomes `+`, every other character is replaced by `%XX` (uppercase hex) for
each byte of its UTF-8 encoding; pairs are joined as `k=v` with `&`. -/

/-- UTF-8 encoding of a character, as byte values. -/
def utf8Bytes (c : Char) : List ℕ :=
  let n := c.toNat
  if n < 0x80 then [n]
  else if n < 0x800 then
    [0xC0 + n / 64, 0x80 + n % 64]
  else if n < 0x10000 then
    [0xE0 + n / 4096, 0x80 + n / 64 % 64, 0x80 + n % 64]
  else
    [0xF0 + n / 262144, 0x80 + n / 4096 % 64, 0x80 + n / 64 % 64, 0x80 + n % 64]

/-- Uppercase hexadecimal digit for a value below 16. -/
def hexDigitChar (n : ℕ) : Char :=
  if n < 10 then Char.ofNat (48 + n) else Char.ofNat (55 + n)

/-- `%XX` escape of one byte. -/
def percentByte (b : ℕ) : String :=
  String.mk ['%', hexDigitChar (b / 16), hexDigitChar (b % 16)]

/-- The characters `urllib.parse.quote` never escapes: ASCII alphanumerics
and `_ . - ~`. -/
def isUrlSafe (c : Char) : Bool :=
  c.isAlphanum || c = '_' || c = '.' || c = '-' || c = '~'

/-- `urllib.parse.quote_plus` on a single character. -/
def quotePlusChar (c : Char) : String :=
  if c = ' ' then "+"
  else if isUrlSafe c then String.mk [c]
  else String.join ((utf8Bytes c).map percentByte)

/-- `urllib.parse.quote_plus` on a string. -/
def quote_plus (s : String) : String :=
  String.join (s.data.map quotePlusChar)

/-- `urllib.parse.urlencode` on an ordered list of key/value pairs (a
Python `dict` iterates in insertion order): each `k=v` pair quoted with
`quote_plus`, pairs joined with `&`. -/
def urlencode : List (String × String) → String
  | [] => ""
  | [p] => quote_plus p.1 ++ "=" ++ quote_plus p.2
  | p :: ps => quote_plus p.1 ++ "=" ++ quote_plus p.2 ++ "&" ++ urlencode ps

/-! ## The client -/

/-- The `What3Words` instance state set by `__init__`: the stored API key
and the two endpoint URLs computed from the fixed scheme, domain and
paths. -/
structure What3Words where
  api_key : String
  geocode_api : String
  reverse_api : String
deriving Repr, DecidableEq

/-- `What3Words.geocode_path`. -/
def geocode_path : String := "/v2/forward"

/-- `What3Words.reverse_path`. -/
def reverse_path : String := "/v2/reverse"

/-- Modelled from the spec: the transport settings handed to the base
`Geocoder` constructor (`geopy/geocoders/base.py`, not in `src/`).  The
spec treats them as an opaque configuration validated by the base class,
so only their well-formedness is modelled. -/
structure TransportConfig where
  malformed : Bool
deriving Repr, DecidableEq

/-- Modelled from the spec: the base `Geocoder.__init__`
(`geopy/geocoders/base.py`, not in `src/`).  It receives the scheme and the
transport settings — not the API key — and raises a configuration error
when the transport settings are malformed. -/
def base_init (cfg : TransportConfig) : Except GeoErr Unit :=
  if cfg.malformed then .error (.ConfigurationError "malformed transport settings")
  else .ok ()

/-- `What3Words.__init__`: call the base constructor with scheme `https`
and the transport settings, then store the API key unchecked and compute
the two endpoint URLs `'%s://%s%s' % (scheme, domain, path)` with the
fixed domain `api.what3words.com`. -/
def what3words_init (api_key : String) (cfg : TransportConfig) :
    Except GeoErr What3Words := do
  base_init cfg
  let scheme := "https"
  let domain := "api.what3words.com"
  .ok { api_key := api_key
        geocode_api := scheme ++ "://" ++ domain ++ geocode_path
        reverse_api := scheme ++ "://" ++ domain ++ reverse_path }

/-- `What3Words.geocode`.  The HTTP collaborator `_call_geocoder` is a
function from the request URL to the decoded JSON body.  The second
component of the result records the URLs actually requested, so that "no
network call is made" is the statement that this list is empty. -/
def geocode (self : What3Words) (query : String) (lang : String)
    (exactly_one : Bool) (transport : String → W3WResponse) :
    Except GeoErr GeoResult × List String :=
  if !check_query query then
    (.error (.GeocoderQueryError "Search string must be 'word.word.word'"), [])
  else
    let params := [("addr", query), ("lang", lang.toLower), ("key", self.api_key)]
    let url := self.geocode_api ++ "?" ++ urlencode params
    (parse_json (transport url) exactly_one, [url])

/-- `What3Words.reverse`.  The point argument has already been normalised
to a `"lat,lng"` string by the coordinate collaborator
`_coerce_point_to_string` (shared base class, out of scope per the spec);
`point_str` is that normalised string. -/
def reverse (self : What3Words) (point_str : String) (lang : String)
    (exactly_one : Bool) (transport : String → W3WResponse) :
    Except GeoErr GeoResult × List String :=
  let lang₁ := lang.toLower
  let params := [("coords", point_str), ("lang", lang₁.toLower), ("key", self.api_key)]
  let url := self.reverse_api ++ "?" ++ urlencode params
  (parse_reverse_json (transport url) exactly_one, [url])

/-- Three-or-more words joined by single dots, used to state the claim
about the number of letter groups. -/
def joinDots : List String → String
  | [] => ""
  | [w] => w
  | w :: ws => w ++ "." ++ joinDots ws

/-! ## Lemmas about the regex matcher -/

/-- The remainder left by a maximal-munch step cannot start with a letter. -/
def headNotLetter : List Char → Prop
  | [] => True
  | c :: _ => isPhraseLetter c = false

lemma headNotLetter_dropLetters (l : List Char) : headNotLetter (dropLetters l) := by
  induction l with
  | nil => trivial
  | cons c cs ih =>
    by_cases h : isPhraseLetter c = true
    · simpa [dropLetters, h] using ih
    · simp only [Bool.not_eq_true] at h
      simp [dropLetters, h, headNotLetter]

lemma dropLetters_decomp (l : List Char) :
    ∃ w, l = w ++ dropLetters l ∧ ∀ c ∈ w, isPhraseLetter c = true := by
  induction l with
  | nil => exact ⟨[], rfl, by simp⟩
  | cons c cs ih =>
    by_cases h : isPhraseLetter c = true
    · obtain ⟨w, hw, hall⟩ := ih
      refine ⟨c :: w, ?_, ?_⟩
      · simpa [dropLetters, h] using hw
      · intro d hd
        rcases List.mem_cons.mp hd with rfl | hd
        · exact h
        · exact hall d hd
    · simp only [Bool.not_eq_true] at h
      exact ⟨[], by simp [dropLetters, h], by simp⟩

lemma dropLetters_append (w t : List Char)
    (hw : ∀ c ∈ w, isPhraseLetter c = true) (ht : headNotLetter t) :
    dropLetters (w ++ t) = t := by
  induction w with
  | nil =>
    cases t with
    | nil => rfl
    | cons c cs => simpa [dropLetters, headNotLetter] using fun h => absurd h (by simpa [headNotLetter] using ht)
  | cons c w ih =>
    have hc : isPhraseLetter c = true := hw c (by simp)
    simp only [List.cons_append, dropLetters, hc, if_true]
    exact ih fun d hd => hw d (by simp [hd])

lemma matchWordPlus_append (w t : List Char) (hne : w ≠ [])
    (hw : ∀ c ∈ w, isPhraseLetter c = true) (ht : headNotLetter t) :
    matchWordPlus (w ++ t) = some t := by
  cases w with
  | nil => exact absurd rfl hne
  | cons c w =>
    have hc : isPhraseLetter c = true := hw c (by simp)
    simp only [List.cons_append, matchWordPlus, hc, if_true, Option.some.injEq]
    exact dropLetters_append w t (fun d hd => hw d (by simp [hd])) ht

lemma matchWordPlus_some {l r : List Char} (h : matchWordPlus l = some r) :
    ∃ w, l = w ++ r ∧ w ≠ [] ∧ (∀ c ∈ w, isPhraseLetter c = true) ∧ headNotLetter r := by
  cases l with
  | nil => simp [matchWordPlus] at h
  | cons c cs =>
    by_cases hc : isPhraseLetter c = true
    · simp only [matchWordPlus, hc, if_true, Option.some.injEq] at h
      obtain ⟨w, hw, hall⟩ := dropLetters_decomp cs
      subst h
      refine ⟨c :: w, by simpa using hw, by simp, ?_, headNotLetter_dropLetters cs⟩
      intro d hd
      rcases List.mem_cons.mp hd with rfl | hd
      · exact hc
      · exact hall d hd
    · simp only [Bool.not_eq_true] at hc
      simp [matchWordPlus, hc] at h

lemma matchDot_some {l r : List Char} : matchDot l = some r ↔ l = '.' :: r := by
  cases l with
  | nil => simp [matchDot]
  | cons c cs =>
    by_cases hc : c = '.'
    · subst hc; simp [matchDot]
    · simp [matchDot, hc, Ne.symm hc]

lemma atEndAnchor_true {r : List Char} : atEndAnchor r = true ↔ r = [] ∨ r = ['\n'] := by
  match r with
  | [] => simp [atEndAnchor]
  | [c] => simp [atEndAnchor]
  | c :: d :: rest => simp [atEndAnchor]

lemma check_query_eq (s : String) : check_query s = multiple_word_re_match s := by
  cases h : multiple_word_re_match s <;> simp [check_query, h]

/-- Soundness of the matcher: a match decomposes the string into three
nonempty letter groups separated by single dots, followed by nothing or a
single final newline. -/
lemma re_match_sound {s : String} (h : multiple_word_re_match s = true) :
    ∃ w₁ w₂ w₃ t, s.data = w₁ ++ '.' :: (w₂ ++ '.' :: (w₃ ++ t)) ∧
      w₁ ≠ [] ∧ w₂ ≠ [] ∧ w₃ ≠ [] ∧
      (∀ c ∈ w₁, isPhraseLetter c = true) ∧
      (∀ c ∈ w₂, isPhraseLetter c = true) ∧
      (∀ c ∈ w₃, isPhraseLetter c = true) ∧
      (t = [] ∨ t = ['\n']) := by
  unfold multiple_word_re_match at h
  cases h₁ : matchWordPlus s.data with
  | none => simp [h₁] at h
  | some r₁ =>
  simp only [h₁] at h
  cases h₂ : matchDot r₁ with
  | none => simp [h₂] at h
  | some r₂ =>
  simp only [h₂] at h
  cases h₃ : matchWordPlus r₂ with
  | none => simp [h₃] at h
  | some r₃ =>
  simp only [h₃] at h
  cases h₄ : matchDot r₃ with
  | none => simp [h₄] at h
  | some r₄ =>
  simp only [h₄] at h
  cases h₅ : matchWordPlus r₄ with
  | none => simp [h₅] at h
  | some r₅ =>
  simp only [h₅] at h
  obtain ⟨w₁, e₁, ne₁, all₁, -⟩ := matchWordPlus_some h₁
  obtain ⟨w₂, e₂, ne₂, all₂, -⟩ := matchWordPlus_some h₃
  obtain ⟨w₃, e₃, ne₃, all₃, -⟩ := matchWordPlus_some h₅
  have d₁ := matchDot_some.mp h₂
  have d₂ := matchDot_some.mp h₄
  refine ⟨w₁, w₂, w₃, r₅, ?_, ne₁, ne₂, ne₃, all₁, all₂, all₃, atEndAnchor_true.mp h⟩
  rw [e₁, d₁, e₂, d₂, e₃]

/-- Completeness of the matcher: three nonempty letter groups separated by
single dots, followed by nothing or a single final newline, match. -/
lemma re_match_complete {w₁ w₂ w₃ t : List Char} {s : String}
    (hs : s.data = w₁ ++ '.' :: (w₂ ++ '.' :: (w₃ ++ t)))
    (ne₁ : w₁ ≠ []) (ne₂ : w₂ ≠ []) (ne₃ : w₃ ≠ [])
    (all₁ : ∀ c ∈ w₁, isPhraseLetter c = true)
    (all₂ : ∀ c ∈ w₂, isPhraseLetter c = true)
    (all₃ : ∀ c ∈ w₃, isPhraseLetter c = true)
    (ht : t = [] ∨ t = ['\n']) :
    multiple_word_re_match s = true := by
  have hdot : isPhraseLetter '.' = false := by decide
  have hnl : headNotLetter t := by
    rcases ht with rfl | rfl
    · trivial
    · show isPhraseLetter '\n' = false
      decide
  have h₁ : matchWordPlus s.data = some ('.' :: (w₂ ++ '.' :: (w₃ ++ t))) := by
    rw [hs]; exact matchWordPlus_append _ _ ne₁ all₁ hdot
  have h₃ : matchWordPlus (w₂ ++ '.' :: (w₃ ++ t)) = some ('.' :: (w₃ ++ t)) :=
    matchWordPlus_append _ _ ne₂ all₂ hdot
  have h₅ : matchWordPlus (w₃ ++ t) = some t :=
    matchWordPlus_append _ _ ne₃ all₃ hnl
  have hend : atEndAnchor t = true := atEndAnchor_true.mpr ht
  unfold multiple_word_re_match
  rw [h₁]
  simp only [matchDot, if_true, reduceIte]
  rw [h₃]
  simp only [matchDot, if_true, reduceIte]
  rw [h₅]
  exact hend

lemma digit_not_phrase_letter {c : Char} (h : c.isDigit = true) :
    isPhraseLetter c = false := by
  have hb : 48 ≤ c.toNat ∧ c.toNat ≤ 57 := by
    simp only [Char.isDigit, decide_eq_true_eq, Bool.and_eq_true, ge_iff_le,
      UInt32.le_def, BitVec.le_def] at h
    have e1 : (UInt32.toBitVec 48).toNat = 48 := rfl
    have e2 : (UInt32.toBitVec 57).toNat = 57 := rfl
    have e3 : c.toNat = c.val.toBitVec.toNat := rfl
    omega
  have key : ∀ n : ℕ, n < 58 → 48 ≤ n → isLetterCode n = false := by decide
  unfold isPhraseLetter
  exact key c.toNat (by omega) hb.1

lemma count_dot_letters {w : List Char} (hw : ∀ c ∈ w, isPhraseLetter c = true) :
    w.count '.' = 0 := by
  rw [List.count_eq_zero]
  intro hmem
  exact absurd (hw '.' hmem) (by decide)

/-- A matching string contains exactly two dots. -/
lemma count_dot_of_match {s : String} (h : multiple_word_re_match s = true) :
    s.data.count '.' = 2 := by
  obtain ⟨w₁, w₂, w₃, t, hs, -, -, -, all₁, all₂, all₃, ht⟩ := re_match_sound h
  have htc : t.count '.' = 0 := by rcases ht with rfl | rfl <;> decide
  rw [hs]
  simp [List.count_append, List.count_cons, count_dot_letters all₁,
    count_dot_letters all₂, count_dot_letters all₃, htc]

/-- Every character of a matching string is a letter, a dot or a newline. -/
lemma mem_of_match {s : String} (h : multiple_word_re_match s = true)
    {c : Char} (hc : c ∈ s.data) :
    isPhraseLetter c = true ∨ c = '.' ∨ c = '\n' := by
  obtain ⟨w₁, w₂, w₃, t, hs, -, -, -, all₁, all₂, all₃, ht⟩ := re_match_sound h
  rw [hs] at hc
  simp only [List.mem_append, List.mem_cons] at hc
  rcases hc with h₁ | rfl | h₂ | rfl | h₃ | hT
  · exact Or.inl (all₁ c h₁)
  · exact Or.inr (Or.inl rfl)
  · exact Or.inl (all₂ c h₂)
  · exact Or.inr (Or.inl rfl)
  · exact Or.inl (all₃ c h₃)
  · rcases ht with rfl | rfl
    · cases hT
    · rcases List.mem_singleton.mp hT with rfl
      exact Or.inr (Or.inr rfl)

lemma count_dot_joinDots {ws : List String}
    (hw : ∀ w ∈ ws, ∀ c ∈ w.data, isPhraseLetter c = true) :
    (joinDots ws).data.count '.' = ws.length - 1 := by
  induction ws with
  | nil => decide
  | cons w ws ih =>
    cases ws with
    | nil =>
      simp only [joinDots, List.length_singleton]
      have : w.data.count '.' = 0 := count_dot_letters (hw w (by simp))
      simpa using this
    | cons w' ws' =>
      have hw' : ∀ v ∈ w' :: ws', ∀ c ∈ v.data, isPhraseLetter c = true :=
        fun v hv => hw v (by simp [hv])
      have ihw := ih hw'
      have hwc : w.data.count '.' = 0 := count_dot_letters (hw w (by simp))
      show ((w ++ "." ++ joinDots (w' :: ws')).data.count '.')
          = (w :: w' :: ws').length - 1
      rw [String.data_append, String.data_append]
      simp only [List.count_append, hwc, ihw]
      have hdot : ("." : String).data.count '.' = 1 := by decide
      simp only [hdot, List.length_cons]
      omega

/-! ## Claim theorems -/

/-- C1: every string of the shape `word.word.word` — three nonempty letter
groups separated by single dots, anchored at the end — passes
`_check_query`; every string with no dot, every string containing a digit
or an underscore, and every dot-joined sequence of letter groups with
fewer or more than three groups fails it. -/
theorem check_query_spec :
    (∀ w₁ w₂ w₃ : String, w₁.data ≠ [] → w₂.data ≠ [] → w₃.data ≠ [] →
      (∀ c ∈ w₁.data, isPhraseLetter c = true) →
      (∀ c ∈ w₂.data, isPhraseLetter c = true) →
      (∀ c ∈ w₃.data, isPhraseLetter c = true) →
      check_query (w₁ ++ "." ++ w₂ ++ "." ++ w₃) = true) ∧
    (∀ s : String, s.data.count '.' = 0 → check_query s = false) ∧
    (∀ s : String, (∃ c ∈ s.data, c.isDigit = true ∨ c = '_') →
      check_query s = false) ∧
    (∀ ws : List String,
      (∀ w ∈ ws, w.data ≠ [] ∧ ∀ c ∈ w.data, isPhraseLetter c = true) →
      ws.length ≠ 3 → check_query (joinDots ws) = false) := by
  refine ⟨?_, ?_, ?_, ?_⟩
  · intro w₁ w₂ w₃ ne₁ ne₂ ne₃ all₁ all₂ all₃
    rw [check_query_eq]
    have hdot : ("." : String).data = ['.'] := by decide
    refine re_match_complete (t := []) ?_ ne₁ ne₂ ne₃ all₁ all₂ all₃ (Or.inl rfl)
    simp [String.data_append, hdot, List.append_assoc]
  · intro s hs
    rw [check_query_eq]
    cases hm : multiple_word_re_match s with
    | false => rfl
    | true =>
      have h2 := count_dot_of_match hm
      rw [hs] at h2
      exact absurd h2 (by decide)
  · intro s hex
    obtain ⟨c, hcmem, hc⟩ := hex
    rw [check_query_eq]
    cases hm : multiple_word_re_match s with
    | false => rfl
    | true =>
      rcases mem_of_match hm hcmem with hl | rfl | rfl
      · rcases hc with hd | rfl
        · rw [digit_not_phrase_letter hd] at hl; cases hl
        · rw [(by decide : isPhraseLetter '_' = false)] at hl; cases hl
      · rcases hc with hd | he
        · exact absurd hd (by decide)
        · exact absurd he (by decide)
      · rcases hc with hd | he
        · exact absurd hd (by decide)
        · exact absurd he (by decide)
  · intro ws hws hlen
    rw [check_query_eq]
    cases hm : multiple_word_re_match (joinDots ws) with
    | false => rfl
    | true =>
      have h2 := count_dot_of_match hm
      have hj := count_dot_joinDots (fun w hw => (hws w hw).2)
      rw [h2] at hj
      exact absurd (by omega : ws.length = 3) hlen

/-- C1 witness: accepts `index.home.raft`; rejects a dotless string, a
string with a digit, and four dot-joined letter groups. -/
theorem check_query_spec_witness :
    check_query ("index" ++ "." ++ "home" ++ "." ++ "raft") = true ∧
    check_query "indexhomeraft" = false ∧
    check_query "a1b.cd.ef" = false ∧
    check_query (joinDots ["ab", "cd", "ef", "gh"]) = false :=
  ⟨check_query_spec.1 "index" "home" "raft" (by decide) (by decide) (by decide)
      (by decide) (by decide) (by decide),
   check_query_spec.2.1 "indexhomeraft" (by decide),
   check_query_spec.2.2.1 "a1b.cd.ef" ⟨'1', by decide, Or.inl (by decide)⟩,
   check_query_spec.2.2.2 ["ab", "cd", "ef", "gh"] (by decide) (by decide)⟩

/-- C2: whenever the query fails `_check_query`, `geocode` raises
`GeocoderQueryError("Search string must be 'word.word.word'")` and performs
no request at all, whatever the transport would have answered. -/
theorem geocode_invalid_query (self : What3Words) (query lang : String)
    (exactly_one : Bool) (transport : String → W3WResponse)
    (h : check_query query = false) :
    geocode self query lang exactly_one transport =
      (.error (.GeocoderQueryError "Search string must be 'word.word.word'"), []) := by
  simp [geocode, h]

/-- C2 witness: the spec's example query `"not a valid query"`. -/
theorem geocode_invalid_query_witness :
    geocode ⟨"KEY", "https://api.what3words.com/v2/forward",
        "https://api.what3words.com/v2/reverse"⟩
      "not a valid query" "en" true (fun _ => ⟨none, none, none⟩) =
      (.error (.GeocoderQueryError "Search string must be 'word.word.word'"), []) :=
  geocode_invalid_query _ "not a valid query" "en" true _ (by decide)

/-- C3: a response whose `status` carries a truthy `code` makes parsing
fail: code 401 becomes `GeocoderAuthenticationFailure`, any other truthy
code becomes `GeocoderQueryError`, and both carry the API-supplied status
message (no `Location` is produced). -/
theorem parse_json_error_status (resources : W3WResponse) (exactly_one : Bool)
    (st : W3WStatus) (code : PyVal) (msg : String)
    (hst : resources.status = some st) (hcode : st.code = some code)
    (htruthy : code.truthy = true) (hmsg : st.message = some msg) :
    parse_json resources exactly_one =
      .error (if code.eqInt 401 then
          .GeocoderAuthenticationFailure ("Error returned by What3Words: " ++ msg)
        else
          .GeocoderQueryError ("Error returned by What3Words: " ++ msg)) := by
  rw [parse_json, hst]
  simp only [getKey, Bind.bind, Except.bind, hcode, htruthy, if_true, hmsg]
  split <;> simp_all

/-- C3 witness: the spec's `{"status":{"code":401,"message":"Invalid
key"}}` stub raises the authentication failure, and a code-3 status raises
the query error, both carrying the message. -/
theorem parse_json_error_status_witness :
    parse_json ⟨some ⟨some (.int 401), some "Invalid key"⟩, none, none⟩ true =
      .error (.GeocoderAuthenticationFailure
        "Error returned by What3Words: Invalid key") ∧
    parse_json ⟨some ⟨some (.int 3), some "Bad coordinates"⟩, none, none⟩ true =
      .error (.GeocoderQueryError
        "Error returned by What3Words: Bad coordinates") := by
  constructor
  · have := parse_json_error_status ⟨some ⟨some (.int 401), some "Invalid key"⟩,
      none, none⟩ true ⟨some (.int 401), some "Invalid key"⟩ (.int 401)
      "Invalid key" rfl rfl (by decide) rfl
    simpa using this
  · have := parse_json_error_status ⟨some ⟨some (.int 3), some "Bad coordinates"⟩,
      none, none⟩ true ⟨some (.int 3), some "Bad coordinates"⟩ (.int 3)
      "Bad coordinates" rfl rfl (by decide) rfl
    simpa using this

/-- When the status check passes (code absent or falsy), `_parse_json`
reduces to its result-parsing tail. -/
lemma parse_json_of_ok (resources : W3WResponse) (st : W3WStatus)
    (exactly_one : Bool) (hst : resources.status = some st)
    (hok : codeTruthy st.code = false) :
    parse_json resources exactly_one = parse_json_tail resources exactly_one := by
  rw [parse_json, hst]
  simp only [getKey, Bind.bind, Except.bind]
  cases hc : st.code with
  | none => rfl
  | some c =>
    have hf : c.truthy = false := by simpa [codeTruthy, hc] using hok
    simp [hf]

/-- C4: on a non-error-status response with a geometry object, the
coordinates are passed through `float` only when both are truthy; when
either is falsy (for instance `0`), both are stored in the `Location`'s
point exactly as decoded. -/
theorem parse_json_coercion (resources : W3WResponse) (st : W3WStatus)
    (position : W3WGeometry) (w lat lng : PyVal)
    (hst : resources.status = some st) (hok : codeTruthy st.code = false)
    (hgeom : resources.geometry = some position)
    (hw : resources.words = some w)
    (hlat : position.lat = some lat) (hlng : position.lng = some lng) :
    (¬(lat.truthy = true ∧ lng.truthy = true) →
      parse_json resources true = .ok (.one ⟨w, (lat, lng), resources⟩)) ∧
    (∀ ql qg : ℚ, lat.truthy = true → lng.truthy = true →
      pyFloat lat = some ql → pyFloat lng = some qg →
      parse_json resources true =
        .ok (.one ⟨w, (.float ql, .float qg), resources⟩)) := by
  have hred : parse_json resources true = parse_json_tail resources true :=
    parse_json_of_ok resources st true hst hok
  constructor
  · intro hnt
    rw [hred, parse_json_tail, parse_resource, hgeom]
    have hb : (lat.truthy && lng.truthy) = false := by
      cases h1 : lat.truthy <;> cases h2 : lng.truthy <;> simp_all
    simp [getKey, hw, hlat, hlng, Bind.bind, Except.bind, hb]
  · intro ql qg h1 h2 hf1 hf2
    rw [hred, parse_json_tail, parse_resource, hgeom]
    simp [getKey, hw, hlat, hlng, Bind.bind, Except.bind, h1, h2, hf1, hf2]

/-- C4 witness: a zero latitude keeps both raw values in the point, while
truthy coordinates are both coerced to floats. -/
theorem parse_json_coercion_witness :
    parse_json ⟨some ⟨none, none⟩, some (.str "index.home.raft"),
        some ⟨some (.int 0), some (.str "-0.203586")⟩⟩ true =
      .ok (.one ⟨.str "index.home.raft", (.int 0, .str "-0.203586"),
        ⟨some ⟨none, none⟩, some (.str "index.home.raft"),
          some ⟨some (.int 0), some (.str "-0.203586")⟩⟩⟩) ∧
    parse_json ⟨some ⟨none, none⟩, some (.str "index.home.raft"),
        some ⟨some (.int 51), some (.float (-1 : ℚ))⟩⟩ true =
      .ok (.one ⟨.str "index.home.raft",
        (.float 51, .float (-1 : ℚ)),
        ⟨some ⟨none, none⟩, some (.str "index.home.raft"),
          some ⟨some (.int 51), some (.float (-1 : ℚ))⟩⟩⟩) := by
  constructor
  · exact (parse_json_coercion _ ⟨none, none⟩ ⟨some (.int 0), some (.str "-0.203586")⟩
      (.str "index.home.raft") (.int 0) (.str "-0.203586")
      rfl rfl rfl rfl rfl rfl).1 (by decide)
  · exact (parse_json_coercion _ ⟨none, none⟩
      ⟨some (.int 51), some (.float (-1 : ℚ))⟩
      (.str "index.home.raft") (.int 51) (.float (-1 : ℚ))
      rfl rfl rfl rfl rfl rfl).2 51 (-1 : ℚ)
      (by simp [PyVal.truthy]) (by simp [PyVal.truthy]) rfl rfl

/-- C5 counterexample: the parse-error message carries a trailing period,
`"Error parsing result."`, so it is not the claimed `"Error parsing
result"`. -/
theorem parse_error_message_counterexample :
    parse_json ⟨some ⟨none, none⟩, none, none⟩ true =
      .error (.GeocoderParseError "Error parsing result.") ∧
    ("Error parsing result." : String) ≠ "Error parsing result" := by
  exact ⟨rfl, by decide⟩

/-- C5 (amended): a non-error-status response without a geometry object
makes both the geocode parsing path and the reverse parsing path raise
`GeocoderParseError` with the message `"Error parsing result."`, and no
`Location` is returned. -/
theorem parse_json_no_geometry (resources : W3WResponse) (st : W3WStatus)
    (exactly_one : Bool) (hst : resources.status = some st)
    (hok : codeTruthy st.code = false) (hgeom : resources.geometry = none) :
    parse_json resources exactly_one =
      .error (.GeocoderParseError "Error parsing result.") ∧
    parse_reverse_json resources exactly_one =
      .error (.GeocoderParseError "Error parsing result.") := by
  have hred := parse_json_of_ok resources st exactly_one hst hok
  have htail : parse_json_tail resources exactly_one =
      .error (.GeocoderParseError "Error parsing result.") := by
    rw [parse_json_tail, parse_resource, hgeom]
    simp [Bind.bind, Except.bind]
  exact ⟨hred.trans htail, by rw [parse_reverse_json]; exact hred.trans htail⟩

/-- C5 witness: a concrete geometry-less response. -/
theorem parse_json_no_geometry_witness :
    parse_json ⟨some ⟨some (.int 0), some "ok"⟩, some (.str "w"), none⟩ false =
      .error (.GeocoderParseError "Error parsing result.") ∧
    parse_reverse_json ⟨some ⟨some (.int 0), some "ok"⟩, some (.str "w"), none⟩ false =
      .error (.GeocoderParseError "Error parsing result.") :=
  parse_json_no_geometry ⟨some ⟨some (.int 0), some "ok"⟩, some (.str "w"), none⟩
    ⟨some (.int 0), some "ok"⟩ false rfl (by decide) rfl

/-- If parsing with `exactly_one` yields a single `Location`, parsing the
same response with `exactly_one=False` yields the singleton list of the
same `Location`. -/
lemma parse_json_true_ok {r : W3WResponse} {loc : Location}
    (h : parse_json r true = .ok (.one loc)) :
    parse_json r false = .ok (.many [loc]) := by
  cases hst : r.status with
  | none =>
    rw [parse_json, hst] at h
    simp [getKey, Bind.bind, Except.bind] at h
  | some st =>
    cases hok : codeTruthy st.code with
    | false =>
      have h₁ := parse_json_of_ok r st true hst hok
      have h₂ := parse_json_of_ok r st false hst hok
      rw [h₁] at h
      rw [h₂]
      rw [parse_json_tail] at h
      rw [parse_json_tail]
      cases hp : parse_resource r with
      | error e => simp [hp, Bind.bind, Except.bind] at h
      | ok l =>
        have hl : l = loc := by simpa [hp, Bind.bind, Except.bind] using h
        subst hl
        simp [hp, Bind.bind, Except.bind]
    | true =>
      rw [parse_json, hst] at h
      simp only [getKey, Bind.bind, Except.bind] at h
      cases hc : st.code with
      | none => simp [codeTruthy, hc] at hok
      | some c =>
        have hct : c.truthy = true := by simpa [codeTruthy, hc] using hok
        simp only [hc, hct, if_true] at h
        cases hm : st.message with
        | none => simp [hm, getKey, Bind.bind, Except.bind] at h
        | some m =>
          simp only [hm, getKey, Bind.bind, Except.bind] at h
          by_cases h401 : c.eqInt 401 = true
          · simp [h401] at h
          · simp [h401] at h

/-- C6: whenever a call with `exactly_one=True` returns a single
`Location`, the same call with `exactly_one=False` returns the one-element
list wrapping that very `Location` — at the parser level and through both
`geocode` and `reverse`. -/
theorem exactly_one_wraps (resources : W3WResponse) (loc : Location)
    (self : What3Words) (query lang point_str : String)
    (transport : String → W3WResponse) :
    (parse_json resources true = .ok (.one loc) →
      parse_json resources false = .ok (.many [loc])) ∧
    ((geocode self query lang true transport).1 = .ok (.one loc) →
      (geocode self query lang false transport).1 = .ok (.many [loc])) ∧
    ((reverse self point_str lang true transport).1 = .ok (.one loc) →
      (reverse self point_str lang false transport).1 = .ok (.many [loc])) := by
  refine ⟨fun h => parse_json_true_ok h, fun h => ?_, fun h => ?_⟩
  · by_cases hq : check_query query
    · simp only [geocode, hq, Bool.not_true, Bool.false_eq_true, if_false] at h ⊢
      exact parse_json_true_ok h
    · simp only [Bool.not_eq_true] at hq
      simp [geocode, hq] at h
  · simp only [reverse, parse_reverse_json] at h ⊢
    exact parse_json_true_ok h

/-- C6 witness: a concrete successful response, unwrapped and wrapped. -/
theorem exactly_one_wraps_witness :
    parse_json ⟨some ⟨none, none⟩, some (.str "index.home.raft"),
        some ⟨some (.float 51), some (.float (-1 : ℚ))⟩⟩ false =
      .ok (.many [⟨.str "index.home.raft", (.float 51, .float (-1 : ℚ)),
        ⟨some ⟨none, none⟩, some (.str "index.home.raft"),
          some ⟨some (.float 51), some (.float (-1 : ℚ))⟩⟩⟩]) :=
  (exactly_one_wraps
    ⟨some ⟨none, none⟩, some (.str "index.home.raft"),
      some ⟨some (.float 51), some (.float (-1 : ℚ))⟩⟩
    ⟨.str "index.home.raft", (.float 51, .float (-1 : ℚ)),
      ⟨some ⟨none, none⟩, some (.str "index.home.raft"),
        some ⟨some (.float 51), some (.float (-1 : ℚ))⟩⟩⟩
    ⟨"KEY", "https://api.what3words.com/v2/forward",
      "https://api.what3words.com/v2/reverse"⟩
    "index.home.raft" "en" "51.5,-0.2" (fun _ => ⟨none, none, none⟩)).1 (by simp [parse_json, parse_json_tail, parse_resource, getKey, codeTruthy, Bind.bind, Except.bind, PyVal.truthy, pyFloat])

/-- `Char.ofNat` on an in-range code point. -/
lemma toNat_ofNat_char (n : ℕ) (h1 : 97 ≤ n) (h2 : n ≤ 122) :
    (Char.ofNat n).toNat = n := by
  rw [Char.ofNat, dif_pos (by unfold Nat.isValidChar; omega)]
  simp [Char.ofNatAux, Char.toNat, UInt32.toNat, BitVec.toNat_ofNatLt]

lemma char_toLower_idem (c : Char) : c.toLower.toLower = c.toLower := by
  unfold Char.toLower
  by_cases h : c.toNat ≥ 65 ∧ c.toNat ≤ 90
  · simp only [h, if_true, and_true, true_and]
    rw [toNat_ofNat_char (c.toNat + 32) (by omega) (by omega)]
    rw [if_neg (by omega)]
  · simp only [h, if_false]

/-- `str.lower()` is idempotent, so the double lowering in `reverse` equals
a single lowering. -/
lemma string_toLower_idem (s : String) : s.toLower.toLower = s.toLower := by
  unfold String.toLower
  rw [String.map_eq, String.map_eq]
  congr 1
  show (String.mk (s.data.map Char.toLower)).data.map Char.toLower =
    s.data.map Char.toLower
  rw [List.map_map]
  exact List.map_congr_left fun c _ => char_toLower_idem c

/-- A successfully constructed client stores the key and the two fixed
endpoint URLs. -/
lemma what3words_init_ok {api_key : String} {cfg : TransportConfig}
    {self : What3Words} (hinit : what3words_init api_key cfg = .ok self) :
    self = ⟨api_key, "https://api.what3words.com/v2/forward",
      "https://api.what3words.com/v2/reverse"⟩ := by
  cases hm : cfg.malformed with
  | true =>
    have hc : cfg = ⟨true⟩ := by cases cfg; simp_all
    rw [hc] at hinit
    simp [what3words_init, base_init, Bind.bind, Except.bind] at hinit
  | false =>
    have hc : cfg = ⟨false⟩ := by cases cfg; simp_all
    rw [hc] at hinit
    have he : what3words_init api_key ⟨false⟩ =
        .ok ⟨api_key, "https://api.what3words.com/v2/forward",
          "https://api.what3words.com/v2/reverse"⟩ := rfl
    rw [he] at hinit
    injection hinit with h
    exact h.symm

/-- C7: for a constructed client, `geocode` requests exactly
`<forward endpoint>?addr=<query>&lang=<lowercased lang>&key=<key>` and
`reverse` requests exactly
`<reverse endpoint>?coords=<normalised point>&lang=<lowercased
lang>&key=<key>`, every parameter value percent-encoded, in those orders. -/
theorem request_url_spec (api_key : String) (cfg : TransportConfig)
    (self : What3Words) (hinit : what3words_init api_key cfg = .ok self)
    (query lang point_str : String) (exactly_one : Bool)
    (transport : String → W3WResponse) (hq : check_query query = true) :
    (geocode self query lang exactly_one transport).2 =
      ["https://api.what3words.com/v2/forward?addr=" ++ quote_plus query ++
        "&lang=" ++ quote_plus lang.toLower ++ "&key=" ++ quote_plus api_key] ∧
    (reverse self point_str lang exactly_one transport).2 =
      ["https://api.what3words.com/v2/reverse?coords=" ++ quote_plus point_str ++
        "&lang=" ++ quote_plus lang.toLower ++ "&key=" ++ quote_plus api_key] := by
  obtain rfl := what3words_init_ok hinit
  have ha : quote_plus "addr" = "addr" := by decide
  have hco : quote_plus "coords" = "coords" := by decide
  have hl : quote_plus "lang" = "lang" := by decide
  have hk : quote_plus "key" = "key" := by decide
  constructor
  · simp only [geocode, hq, Bool.not_true, Bool.false_eq_true, if_false]
    refine congrArg (fun u => [u]) ?_
    apply String.ext
    simp only [urlencode, ha, hl, hk, String.data_append, List.append_assoc,
      List.cons_append, List.nil_append]
  · simp only [reverse]
    refine congrArg (fun u => [u]) ?_
    apply String.ext
    simp only [urlencode, hco, hl, hk, String.data_append, List.append_assoc,
      List.cons_append, List.nil_append]
    rw [string_toLower_idem]

/-- C7 witness: a concrete client, query, language and point. -/
theorem request_url_spec_witness :
    (geocode ⟨"KEY", "https://api.what3words.com/v2/forward",
        "https://api.what3words.com/v2/reverse"⟩ "index.home.raft" "EN" true
      (fun _ => ⟨none, none, none⟩)).2 =
      ["https://api.what3words.com/v2/forward?addr=" ++
        quote_plus "index.home.raft" ++ "&lang=" ++
        quote_plus ("EN" : String).toLower ++ "&key=" ++ quote_plus "KEY"] ∧
    (reverse ⟨"KEY", "https://api.what3words.com/v2/forward",
        "https://api.what3words.com/v2/reverse"⟩ "51.5,-0.2" "EN" true
      (fun _ => ⟨none, none, none⟩)).2 =
      ["https://api.what3words.com/v2/reverse?coords=" ++
        quote_plus "51.5,-0.2" ++ "&lang=" ++
        quote_plus ("EN" : String).toLower ++ "&key=" ++ quote_plus "KEY"] :=
  request_url_spec "KEY" ⟨false⟩
    ⟨"KEY", "https://api.what3words.com/v2/forward",
      "https://api.what3words.com/v2/reverse"⟩ rfl
    "index.home.raft" "EN" "51.5,-0.2" true (fun _ => ⟨none, none, none⟩)
    (by decide)

/-- A truthy status code always produces an error result. -/
lemma parse_json_truthy_error {r : W3WResponse} {st : W3WStatus}
    (hst : r.status = some st) (hok : codeTruthy st.code = true) (e : Bool) :
    ∃ err, parse_json r e = .error err := by
  rw [parse_json, hst]
  simp only [getKey, Bind.bind, Except.bind]
  cases hc : st.code with
  | none => simp [codeTruthy, hc] at hok
  | some c =>
    have hct : c.truthy = true := by simpa [codeTruthy, hc] using hok
    simp only [hct, if_true]
    cases hm : st.message with
    | none => exact ⟨.KeyError "message", by simp [getKey]⟩
    | some m =>
      by_cases h401 : c.eqInt 401 = true
      · exact ⟨.GeocoderAuthenticationFailure
          ("Error returned by What3Words: " ++ m), by simp [getKey, h401]⟩
      · exact ⟨.GeocoderQueryError
          ("Error returned by What3Words: " ++ m), by simp [getKey, h401]⟩

/-- A single-`Location` result comes from `parse_resource` succeeding. -/
lemma parse_json_ok_one {r : W3WResponse} {loc : Location}
    (h : parse_json r true = .ok (.one loc)) :
    parse_resource r = .ok loc := by
  cases hst : r.status with
  | none =>
    rw [parse_json, hst] at h
    simp [getKey, Bind.bind, Except.bind] at h
  | some st =>
    cases hok : codeTruthy st.code with
    | false =>
      have h₁ := parse_json_of_ok r st true hst hok
      rw [h₁, parse_json_tail] at h
      cases hp : parse_resource r with
      | error e => simp [hp, Bind.bind, Except.bind] at h
      | ok l =>
        have hl : l = loc := by simpa [hp, Bind.bind, Except.bind] using h
        rw [hl]
    | true =>
      obtain ⟨err, he⟩ := parse_json_truthy_error hst hok true
      rw [he] at h
      cases h

/-- A record parsed into a `Location` takes its label from the response's
`words` field. -/
lemma parse_resource_label {r : W3WResponse} {loc : Location} {w : PyVal}
    (hw : r.words = some w) (h : parse_resource r = .ok loc) :
    loc.label = w := by
  rw [parse_resource] at h
  cases hg : r.geometry with
  | none => simp [hg] at h
  | some pos =>
    simp only [hg, getKey, hw, Bind.bind, Except.bind] at h
    cases hlat : pos.lat with
    | none => simp [hlat] at h
    | some lat =>
      cases hlng : pos.lng with
      | none => simp [hlat, hlng] at h
      | some lng =>
        simp only [hlat, hlng] at h
        by_cases hb : (lat.truthy && lng.truthy) = true
        · simp only [hb, if_true] at h
          cases hfl : pyFloat lat with
          | none => simp [hfl] at h
          | some ql =>
            cases hfg : pyFloat lng with
            | none => simp [hfl, hfg] at h
            | some qg =>
              simp only [hfl, hfg] at h
              injection h with h
              rw [← h]
        · simp only [Bool.not_eq_true] at hb
          simp only [hb, Bool.false_eq_true, if_false] at h
          injection h with h
          rw [← h]

/-- C8 counterexample: on a reverse lookup the returned `Location`'s label
is the response's `words` field (the three-word phrase), not the original
queried address. -/
theorem reverse_label_counterexample :
    (reverse ⟨"KEY", "https://api.what3words.com/v2/forward",
        "https://api.what3words.com/v2/reverse"⟩ "51.521251,-0.203586" "en" true
      (fun _ => ⟨some ⟨none, none⟩, some (.str "index.home.raft"),
        some ⟨some (.float 51), some (.float (-1 : ℚ))⟩⟩)).1 =
      .ok (.one ⟨.str "index.home.raft", (.float 51, .float (-1 : ℚ)),
        ⟨some ⟨none, none⟩, some (.str "index.home.raft"),
          some ⟨some (.float 51), some (.float (-1 : ℚ))⟩⟩⟩) ∧
    PyVal.str "index.home.raft" ≠ PyVal.str "51.521251,-0.203586" := by
  constructor
  · simp [reverse, parse_reverse_json, parse_json, parse_json_tail,
      parse_resource, getKey, codeTruthy, Bind.bind, Except.bind,
      PyVal.truthy, pyFloat]
  · decide

/-- C8 (amended): the `label` of every parsed `Location` is the response's
`words` field — the three-word phrase — on the forward parse and on the
reverse parse alike; the original reverse query never enters the parse. -/
theorem location_label_from_words (r : W3WResponse) (loc : Location)
    (w : PyVal) (hw : r.words = some w) :
    (parse_json r true = .ok (.one loc) → loc.label = w) ∧
    (parse_reverse_json r true = .ok (.one loc) → loc.label = w) := by
  have key : parse_json r true = .ok (.one loc) → loc.label = w := fun h =>
    parse_resource_label hw (parse_json_ok_one h)
  exact ⟨key, fun h => key (by rwa [parse_reverse_json] at h)⟩

/-- C8 witness: the label of a concrete parsed response is its `words`
value. -/
theorem location_label_from_words_witness :
    (⟨.str "index.home.raft", (.float 51, .float (-1 : ℚ)),
      ⟨some ⟨none, none⟩, some (.str "index.home.raft"),
        some ⟨some (.float 51), some (.float (-1 : ℚ))⟩⟩⟩ : Location).label =
      .str "index.home.raft" :=
  (location_label_from_words
    ⟨some ⟨none, none⟩, some (.str "index.home.raft"),
      some ⟨some (.float 51), some (.float (-1 : ℚ))⟩⟩
    ⟨.str "index.home.raft", (.float 51, .float (-1 : ℚ)),
      ⟨some ⟨none, none⟩, some (.str "index.home.raft"),
        some ⟨some (.float 51), some (.float (-1 : ℚ))⟩⟩⟩
    (.str "index.home.raft") rfl).2
    (by simp [parse_reverse_json, parse_json, parse_json_tail, parse_resource,
      getKey, codeTruthy, Bind.bind, Except.bind, PyVal.truthy, pyFloat])

/-- C9 counterexample: construction with an empty API key succeeds — no
configuration error is raised — and the empty key is stored as-is. -/
theorem init_empty_key_counterexample :
    what3words_init "" ⟨false⟩ =
      .ok ⟨"", "https://api.what3words.com/v2/forward",
        "https://api.what3words.com/v2/reverse"⟩ := rfl

/-- C9 (amended): construction never inspects the API key: for every key,
including the empty string, it succeeds whenever the transport settings
are well-formed, storing the key and the two fixed endpoint URLs, and it
raises the configuration error exactly when the transport settings are
malformed. -/
theorem init_stores_key_and_urls (api_key : String) (cfg : TransportConfig) :
    (cfg.malformed = false → what3words_init api_key cfg =
      .ok ⟨api_key, "https://api.what3words.com/v2/forward",
        "https://api.what3words.com/v2/reverse"⟩) ∧
    (cfg.malformed = true → what3words_init api_key cfg =
      .error (.ConfigurationError "malformed transport settings")) := by
  constructor
  · intro h
    have hc : cfg = ⟨false⟩ := by cases cfg; simp_all
    rw [hc]
    rfl
  · intro h
    have hc : cfg = ⟨true⟩ := by cases cfg; simp_all
    rw [hc]
    rfl

/-- C9 witness: a non-empty key with well-formed and with malformed
transport settings. -/
theorem init_stores_key_and_urls_witness :
    what3words_init "SOMEKEY" ⟨false⟩ =
      .ok ⟨"SOMEKEY", "https://api.what3words.com/v2/forward",
        "https://api.what3words.com/v2/reverse"⟩ ∧
    what3words_init "SOMEKEY" ⟨true⟩ =
      .error (.ConfigurationError "malformed transport settings") :=
  ⟨(init_stores_key_and_urls "SOMEKEY" ⟨false⟩).1 rfl,
   (init_stores_key_and_urls "SOMEKEY" ⟨true⟩).2 rfl⟩

/-- C10: `"index.home.raft\n"` — a valid shape plus a trailing newline,
hence a string that does not end in a letter — passes `_check_query`,
because `$` also matches just before a final newline, and `geocode` then
proceeds to the network request. -/
theorem trailing_newline_accepted :
    check_query "index.home.raft\n" = true ∧
    "index.home.raft\n".data.getLast? = some '\n' ∧
    isPhraseLetter '\n' = false ∧
    (geocode ⟨"KEY", "https://api.what3words.com/v2/forward",
        "https://api.what3words.com/v2/reverse"⟩ "index.home.raft\n" "en" true
      (fun _ => ⟨some ⟨none, none⟩, none, none⟩)).2.length = 1 := by
  exact ⟨by decide, by decide, by decide, by decide⟩

end What3WordsSpec
